import Mathlib

/-!
Shallow embedding of the authentication core of `src/src-tauri/src/lib.rs`
(a Tauri desktop client): the login-response normalizer, the error
classifier, and the three command façades `authenticate_user`,
`authenticated_request` and `logout_user`.

JSON values are modelled by the inductive `Json` below; the external
`serde_json` parser is abstracted away by carrying, next to each raw body
text, the outcome of parsing it (`Except String Json`, the error holding
the description from the parser).  The external HTTP transport (`reqwest`) is
modelled by the outcome it delivers (`TransportResult`): a status code with
a body read, or a connection error carrying the cause description.
-/

set_option autoImplicit false

/-- A parsed JSON value, the model of `serde_json::Value`.  Numbers carry an
integer payload; no claim depends on numeric values, only on a number not
being a string. -/
inductive Json where
  | null
  | bool (b : Bool)
  | num (n : Int)
  | str (s : String)
  | arr (elems : List Json)
  | obj (fields : List (String × Json))

/-- Model of `serde_json::Value::get(key)` on the object case: look the key
up among the fields of the object (`None` on non-objects and missing keys). -/
def Json.get (j : Json) (key : String) : Option Json :=
  match j with
  | .obj fields => fields.lookup key
  | _ => none

/-- Model of `Value::as_str()`: the payload of a JSON string, else `None`. -/
def Json.asStr : Json → Option String
  | .str s => some s
  | _ => none

/-- Model of the Rust pattern `value.get(key).and_then(|v| v.as_str())`. -/
def getStr (j : Json) (key : String) : Option String :=
  (j.get key).bind Json.asStr

/-- The `AuthResponse` struct (lib.rs lines 46-61): the canonical outcome
returned to the frontend on a successful login. -/
structure AuthResponse where
  success : Bool
  token : Option String
  refresh_token : Option String
  message : String
  username : Option String
  email : Option String
  profile_pic_url : Option String
  logo_url : Option String
  organization_name : Option String
  user_role : Option Json
  organization_type : Option String
  tax_identification_number : Option String
  staff_role : Option String
  department : Option String

/-- The field-extraction and token check of `authenticate_user`
(lib.rs lines 102-175), applied to an already-parsed JSON body: extract
each field by key with `as_str` tolerance (`unwrap_or("")` for the two
tokens, `unwrap_or("Login successful")` for `message`, `map` for the rest,
`cloned` for `user_role`), fail with `"No access token in response"` when
the extracted access token is empty, otherwise build the `AuthResponse`
with `success = true`. -/
def normalizeResponse (j : Json) : Except String AuthResponse :=
  let access_token := (getStr j "access_token").getD ""
  let refresh_token := (getStr j "refresh_token").getD ""
  let username := getStr j "username"
  let email := getStr j "email"
  let message := (getStr j "message").getD "Login successful"
  let profile_pic_url := getStr j "profile_pic_url"
  let logo_url := getStr j "logo_url"
  let organization_name := getStr j "organization_name"
  let user_role := j.get "user_role"
  let organization_type := getStr j "organization_type"
  let tax_identification_number := getStr j "tax_identification_number"
  let staff_role := getStr j "staff_role"
  let department := getStr j "department"
  if access_token = "" then
    Except.error "No access token in response"
  else
    Except.ok
      { success := true
        token := some access_token
        refresh_token := some refresh_token
        message := message
        username := username
        email := email
        profile_pic_url := profile_pic_url
        logo_url := logo_url
        organization_name := organization_name
        user_role := user_role
        organization_type := organization_type
        tax_identification_number := tax_identification_number
        staff_role := staff_role
        department := department }

/-- The status-code fallback table of `authenticate_user`
(lib.rs lines 200-206): `match status.as_u16()` over 401/403/404/500 with a
generic default. -/
def statusFallback (status : Nat) : String :=
  match status with
  | 401 => "Invalid email or password. Please try again."
  | 403 => "Access denied. Your account may not have permission to use this application."
  | 404 => "Account not found. Please check your email address."
  | 500 => "Server error. Please try again later."
  | _ => "Login failed. Please try again."

/-- The error-classification logic of `authenticate_user`
(lib.rs lines 181-208), over the status code and the parse outcome of the
error body (`None` models a `serde_json::from_str` failure): a string
`error` field is mapped through the fixed three-entry table with verbatim
passthrough; else a string `message` field is used verbatim; else the
status-code fallback. -/
def classify (status : Nat) (parsed : Option Json) : String :=
  match parsed with
  | some j =>
    match getStr j "error" with
    | some error_msg =>
      match error_msg with
      | "Account not found" => "Account not found. Please check your email address."
      | "Invalid password" => "Invalid password. Please try again."
      | "Invalid credentials" => "Invalid email or password. Please try again."
      | _ => error_msg
    | none =>
      match getStr j "message" with
      | some msg => msg
      | none => statusFallback status
  | none => statusFallback status

/-- Model of `reqwest::StatusCode::is_success()`: status in `200..=299`. -/
def statusIsSuccess (status : Nat) : Bool :=
  200 ≤ status && status ≤ 299

/-- The outcome of reading a response body (`response.text().await`):
either a read failure carrying the cause, or the raw text together with
the outcome of parsing that text as JSON (the abstraction of what
`serde_json::from_str` returns on it; the error side holds the parser
description). -/
inductive BodyRead where
  | failure (e : String)
  | success (raw : String) (parsed : Except String Json)

/-- The outcome delivered by one `reqwest` send: a response with a status
code and a body read, or a connection-level error carrying the cause
description. -/
inductive TransportResult where
  | response (status : Nat) (body : BodyRead)
  | connErr (e : String)

/-- The `authenticate_user` command (lib.rs lines 65-213) as a function of
the transport outcome of its single login POST.  On HTTP success the body
is read (read failure surfaces as `"Failed to read response: ..."`), parsed
(parse failure surfaces as `"Failed to parse JSON: ... Response was: ..."`)
and normalized; on HTTP non-success the body text is read with
`unwrap_or("Unknown error")` (that fixed fallback string is not valid JSON,
so its parse fails) and classified; on connection error the cause is
wrapped with a reachability hint. -/
def authenticate_user (t : TransportResult) : Except String AuthResponse :=
  match t with
  | .response status body =>
    if statusIsSuccess status then
      match body with
      | .failure e => Except.error ("Failed to read response: " ++ e)
      | .success raw parsed =>
        match parsed with
        | .error e =>
          Except.error ("Failed to parse JSON: " ++ e ++ ". Response was: " ++ raw)
        | .ok j => normalizeResponse j
    else
      let errorParse : Option Json :=
        match body with
        | .failure _ => none
        | .success _ parsed => parsed.toOption
      Except.error (classify status errorParse)
  | .connErr e =>
    Except.error
      ("Connection failed: " ++ e ++ ". Make sure backend is running on http://127.0.0.1:8000")

/-- Model of the Rust `str::to_uppercase()` as used on the method string:
ASCII lowercase letters are mapped to uppercase (`Char.toUpper`), the
method strings at play being ASCII. -/
def toUppercase (s : String) : String :=
  ⟨s.data.map Char.toUpper⟩

/-- The five HTTP verbs accepted by `authenticated_request`
(lib.rs lines 225-232). -/
def supportedVerbs : List String :=
  ["GET", "POST", "PUT", "DELETE", "PATCH"]

/-- The request `authenticated_request` hands to the transport
(lib.rs lines 225-243): URL, canonical verb, the three injected headers,
and the optional body. -/
structure SentRequest where
  url : String
  verb : String
  headers : List (String × String)
  body : Option String

/-- The request built by `authenticated_request` for a given canonical
verb: bearer authorization, desktop client marker, JSON content type. -/
def builtRequest (url verb token : String) (body : Option String) : SentRequest :=
  { url := url
    verb := verb
    headers :=
      [("Authorization", "Bearer " ++ token),
       ("X-Client-Type", "desktop"),
       ("Content-Type", "application/json")]
    body := body }

/-- Model of `response.text().await.unwrap_or_else(|_| "Failed to read
response")` in `authenticated_request` (lib.rs line 248). -/
def readText : BodyRead → String
  | .failure _ => "Failed to read response"
  | .success raw _ => raw

/-- The response handling of `authenticated_request` (lib.rs lines
245-257): raw body text on HTTP success, `"Request failed (<status>):
<body>"` on HTTP non-success, `"Connection failed: <cause>"` on
connection error.  `sd` renders a status code the way the Rust
`format!("{}", status)` displays `reqwest::StatusCode`. -/
def handleResponse (sd : Nat → String) (t : TransportResult) : Except String String :=
  match t with
  | .response status body =>
    let text := readText body
    if statusIsSuccess status then Except.ok text
    else Except.error ("Request failed (" ++ sd status ++ "): " ++ text)
  | .connErr e => Except.error ("Connection failed: " ++ e)

/-- The `authenticated_request` command (lib.rs lines 217-258) as a
function of the transport (one send per built request): match the
uppercased method against the five verbs, reject anything else with
`"Unsupported HTTP method: <method>"` before any transport use, otherwise
build the request with the injected headers and handle the response. -/
def authenticated_request (sd : Nat → String) (url method token : String)
    (body : Option String) (transport : SentRequest → TransportResult) :
    Except String String :=
  match toUppercase method with
  | "GET" => handleResponse sd (transport (builtRequest url "GET" token body))
  | "POST" => handleResponse sd (transport (builtRequest url "POST" token body))
  | "PUT" => handleResponse sd (transport (builtRequest url "PUT" token body))
  | "DELETE" => handleResponse sd (transport (builtRequest url "DELETE" token body))
  | "PATCH" => handleResponse sd (transport (builtRequest url "PATCH" token body))
  | _ => Except.error ("Unsupported HTTP method: " ++ method)

/-- The `logout_user` command (lib.rs lines 262-283) as a function of the
transport outcome of its single logout POST: a fixed success string on
HTTP success, the fixed `"Logout failed"` string on HTTP non-success (the
response body is never read), `"Request failed: <cause>"` on connection
error. -/
def logout_user (t : TransportResult) : Except String String :=
  match t with
  | .response status _body =>
    if statusIsSuccess status then Except.ok "Logged out successfully"
    else Except.error "Logout failed"
  | .connErr e => Except.error ("Request failed: " ++ e)

example :
    normalizeResponse (.obj [("access_token", .str "abc"), ("username", .str "alice")]) =
      Except.ok
        { success := true, token := some "abc", refresh_token := some ""
          message := "Login successful", username := some "alice", email := none
          profile_pic_url := none, logo_url := none, organization_name := none
          user_role := none, organization_type := none
          tax_identification_number := none, staff_role := none, department := none } := rfl

example : normalizeResponse (.obj [("username", .str "alice")]) =
    Except.error "No access token in response" := rfl

example : classify 200 (some (.obj [("error", .str "Invalid password")])) =
    "Invalid password. Please try again." := rfl

example : classify 401 none = "Invalid email or password. Please try again." := rfl

example : classify 418 (some (.obj [("error", .num 3), ("message", .str "hi")])) = "hi" := rfl

example : toUppercase "head" = "HEAD" := rfl

example :
    authenticated_request (fun s => toString s) "u" "get" "t" none
      (fun _ => .response 204 (.success "ok-body" (Except.error "p"))) =
      Except.ok "ok-body" := rfl

example :
    authenticated_request (fun s => toString s) "u" "HEAD" "t" none
      (fun _ => .response 204 (.success "ok-body" (Except.error "p"))) =
      Except.error "Unsupported HTTP method: HEAD" := rfl

example :
    authenticated_request (fun s => toString s) "u" "Post" "t" (some "b")
      (fun _ => .response 500 (.success "oops" (Except.error "p"))) =
      Except.error "Request failed (500): oops" := rfl

example : ¬ toUppercase "HEAD" ∈ supportedVerbs := by decide

/-- Helper: on any method whose uppercasing is a supported verb,
`authenticated_request` builds the request for that verb and hands the
answer of the transport to `handleResponse`. -/
theorem authenticated_request_supported (sd : Nat → String) (url method token : String)
    (body : Option String) (transport : SentRequest → TransportResult)
    (h : toUppercase method ∈ supportedVerbs) :
    authenticated_request sd url method token body transport =
      handleResponse sd (transport (builtRequest url (toUppercase method) token body)) := by
  simp only [supportedVerbs, List.mem_cons, List.mem_singleton, List.not_mem_nil,
    or_false] at h
  unfold authenticated_request
  rcases h with h | h | h | h | h <;> rw [h] <;> rfl

/-- C1: on an HTTP-success login response whose body parses as JSON,
`authenticate_user` returns a success outcome if and only if the extracted
access token (`get("access_token").and_then(as_str).unwrap_or("")`) is
non-empty; when that extraction is empty — key absent, value non-string,
or the empty string — the result is exactly the error
`"No access token in response"`, regardless of the other fields. -/
theorem c1_token_gates_success (status : Nat) (raw : String) (j : Json)
    (hs : statusIsSuccess status = true) :
    ((∃ r, authenticate_user (.response status (.success raw (Except.ok j))) =
        Except.ok r ∧ r.success = true) ↔ (getStr j "access_token").getD "" ≠ "") ∧
    ((getStr j "access_token").getD "" = "" →
      authenticate_user (.response status (.success raw (Except.ok j))) =
        Except.error "No access token in response") := by
  by_cases h : (getStr j "access_token").getD "" = "" <;>
    simp [authenticate_user, normalizeResponse, hs, h]

/-- C1 witness: a concrete body with a non-empty token yields success. -/
theorem c1_witness :
    ∃ r, authenticate_user
        (.response 200 (.success "body" (Except.ok (.obj [("access_token", Json.str "abc")])))) =
        Except.ok r ∧ r.success = true :=
  (c1_token_gates_success 200 "body" (.obj [("access_token", Json.str "abc")])
    (by decide)).1.mpr (by decide)

/-- The concrete C2 scenario: HTTP 200 with parsed body
`\x7b"access_token":"abc","username":"alice"\x7d`. -/
def loginAbcAlice : TransportResult :=
  .response 200 (.success "login-body"
    (Except.ok (.obj [("access_token", Json.str "abc"), ("username", Json.str "alice")])))

/-- C2 counterexample: on that scenario the outcome field `refresh_token` is
`some ""` — present (as the empty string), not absent as the claim states
for every optional field other than the token. -/
theorem c2_counterexample :
    authenticate_user loginAbcAlice = Except.ok
      { success := true, token := some "abc", refresh_token := some ""
        message := "Login successful", username := some "alice", email := none
        profile_pic_url := none, logo_url := none, organization_name := none
        user_role := none, organization_type := none
        tax_identification_number := none, staff_role := none, department := none } ∧
    (some "" : Option String) ≠ none :=
  ⟨rfl, by decide⟩

/-- C2 amended: on HTTP 200 with body
`\x7b"access_token":"abc","username":"alice"\x7d`, `authenticate_user`
returns success with token `"abc"`, username `"alice"`, the default
message, `refresh_token` present but equal to the empty string, and every
other optional field absent. -/
theorem c2_exact_outcome :
    authenticate_user loginAbcAlice = Except.ok
      { success := true, token := some "abc", refresh_token := some ""
        message := "Login successful", username := some "alice", email := none
        profile_pic_url := none, logo_url := none, organization_name := none
        user_role := none, organization_type := none
        tax_identification_number := none, staff_role := none, department := none } :=
  rfl

/-- C3: whenever the parsed error body has a string `error` field, the
classifier maps the three known error strings through the fixed table and
passes any other string through verbatim, and the status code plays no
role in this branch. -/
theorem c3_error_field_classification (status : Nat) (j : Json) (e : String)
    (h : getStr j "error" = some e) :
    classify status (some j) =
      (if e = "Account not found" then "Account not found. Please check your email address."
       else if e = "Invalid password" then "Invalid password. Please try again."
       else if e = "Invalid credentials" then "Invalid email or password. Please try again."
       else e) ∧
    ∀ status2 : Nat, classify status2 (some j) = classify status (some j) := by
  constructor
  · simp only [classify]
    rw [h]
    split <;> simp_all
    all_goals split <;> simp_all
  · intro status2
    simp only [classify]
    rw [h]

/-- C3 witness: `"Invalid password"` maps to its table entry at an
arbitrary status. -/
theorem c3_witness :
    classify 200 (some (.obj [("error", Json.str "Invalid password")])) =
      "Invalid password. Please try again." :=
  ((c3_error_field_classification 200 (.obj [("error", Json.str "Invalid password")])
    "Invalid password" rfl).1).trans (by decide)

/-- C4: with an unparseable body (`none`), classification is exactly the
status-code fallback table, and a body that parses but has neither a
string `error` field nor a string `message` field classifies the same way;
`classify` is total by type, so exactly one message is always produced. -/
theorem c4_fallback_classification (status : Nat) :
    classify status none =
      (if status = 401 then "Invalid email or password. Please try again."
       else if status = 403 then
        "Access denied. Your account may not have permission to use this application."
       else if status = 404 then "Account not found. Please check your email address."
       else if status = 500 then "Server error. Please try again later."
       else "Login failed. Please try again.") ∧
    ∀ j : Json, getStr j "error" = none → getStr j "message" = none →
      classify status (some j) = classify status none := by
  constructor
  · show statusFallback status = _
    unfold statusFallback
    split <;> simp_all
  · intro j he hm
    simp only [classify]
    rw [he, hm]

/-- C4 witness: status 401 with a body whose `error` field is a number and
with no `message` field falls back to the 401 entry. -/
theorem c4_witness :
    classify 401 (some (Json.obj [("error", Json.num 5)])) =
      "Invalid email or password. Please try again." :=
  ((c4_fallback_classification 401).2 (Json.obj [("error", Json.num 5)]) rfl rfl).trans
    (((c4_fallback_classification 401).1).trans (by decide))

/-- A body whose `refresh_token` key holds a number, for the C5
counterexample. -/
def numberRefreshBody : Json :=
  .obj [("access_token", Json.str "tok"), ("refresh_token", Json.num 7)]

/-- C5 counterexample: with `refresh_token` present but not a string, the
normalized outcome `refresh_token` is `some ""` — present, not absent as
the claim states for every optional field of the wrong type. -/
theorem c5_counterexample :
    normalizeResponse numberRefreshBody = Except.ok
      { success := true, token := some "tok", refresh_token := some ""
        message := "Login successful", username := none, email := none
        profile_pic_url := none, logo_url := none, organization_name := none
        user_role := none, organization_type := none
        tax_identification_number := none, staff_role := none, department := none } ∧
    (some "" : Option String) ≠ none :=
  ⟨rfl, by decide⟩

/-- C5 amended: normalization is field-by-field tolerant for the ten
`map`-extracted optional fields — an absent or non-string (for `user_role`:
absent) key leaves that outcome field absent and never fails normalization
— and `message` defaults to `"Login successful"`; `refresh_token`,
however, defaults to the present empty string, and an empty extracted
access token is the one failure case (covered by C1). -/
theorem c5_tolerant_extraction (j : Json)
    (h : (getStr j "access_token").getD "" ≠ "") :
    ∃ r, normalizeResponse j = Except.ok r ∧
      (getStr j "username" = none → r.username = none) ∧
      (getStr j "email" = none → r.email = none) ∧
      (getStr j "profile_pic_url" = none → r.profile_pic_url = none) ∧
      (getStr j "logo_url" = none → r.logo_url = none) ∧
      (getStr j "organization_name" = none → r.organization_name = none) ∧
      (j.get "user_role" = none → r.user_role = none) ∧
      (getStr j "organization_type" = none → r.organization_type = none) ∧
      (getStr j "tax_identification_number" = none → r.tax_identification_number = none) ∧
      (getStr j "staff_role" = none → r.staff_role = none) ∧
      (getStr j "department" = none → r.department = none) ∧
      (getStr j "message" = none → r.message = "Login successful") ∧
      (getStr j "refresh_token" = none → r.refresh_token = some "") := by
  refine ⟨{ success := true
            token := some ((getStr j "access_token").getD "")
            refresh_token := some ((getStr j "refresh_token").getD "")
            message := (getStr j "message").getD "Login successful"
            username := getStr j "username"
            email := getStr j "email"
            profile_pic_url := getStr j "profile_pic_url"
            logo_url := getStr j "logo_url"
            organization_name := getStr j "organization_name"
            user_role := j.get "user_role"
            organization_type := getStr j "organization_type"
            tax_identification_number := getStr j "tax_identification_number"
            staff_role := getStr j "staff_role"
            department := getStr j "department" }, ?_, fun hh => hh, fun hh => hh,
    fun hh => hh, fun hh => hh, fun hh => hh, fun hh => hh, fun hh => hh, fun hh => hh,
    fun hh => hh, fun hh => hh, fun hh => by simp [hh], fun hh => by simp [hh]⟩
  simp only [normalizeResponse]
  rw [if_neg h]

/-- C5 witness: a body holding only the access token normalizes with every
map-extracted field absent. -/
theorem c5_witness :
    ∃ r, normalizeResponse (Json.obj [("access_token", Json.str "t")]) = Except.ok r ∧
      r.username = none := by
  obtain ⟨r, hr, hu, _⟩ :=
    c5_tolerant_extraction (Json.obj [("access_token", Json.str "t")]) (by decide)
  exact ⟨r, hr, hu rfl⟩

/-- C6: any method whose uppercasing is outside the five supported verbs
is rejected with the unsupported-method message, and the result does not
depend on the transport — no network call is consulted. -/
theorem c6_unsupported_method (sd : Nat → String) (url method token : String)
    (body : Option String) (transport : SentRequest → TransportResult)
    (h : ¬ toUppercase method ∈ supportedVerbs) :
    authenticated_request sd url method token body transport =
      Except.error ("Unsupported HTTP method: " ++ method) := by
  unfold authenticated_request
  split <;> simp_all [supportedVerbs]

/-- C6 witness: method `"HEAD"` is rejected whatever the transport. -/
theorem c6_witness :
    authenticated_request (fun s => toString s) "https://x" "HEAD" "tok" none
      (fun _ => TransportResult.connErr "unused") =
      Except.error "Unsupported HTTP method: HEAD" :=
  c6_unsupported_method (fun s => toString s) "https://x" "HEAD" "tok" none
    (fun _ => TransportResult.connErr "unused") (by decide)

/-- C7: on a supported method, when the transport answers the built
request with a response, `authenticated_request` returns the body text
unchanged on an HTTP-success status and otherwise exactly
`"Request failed (<status>): <body>"` (a read failure standing in with the
fixed `"Failed to read response"` text). -/
theorem c7_response_passthrough (sd : Nat → String) (url method token : String)
    (body : Option String) (transport : SentRequest → TransportResult)
    (status : Nat) (br : BodyRead)
    (hm : toUppercase method ∈ supportedVerbs)
    (ht : transport (builtRequest url (toUppercase method) token body) =
      TransportResult.response status br) :
    authenticated_request sd url method token body transport =
      (if statusIsSuccess status then Except.ok (readText br)
       else Except.error ("Request failed (" ++ sd status ++ "): " ++ readText br)) := by
  rw [authenticated_request_supported sd url method token body transport hm, ht]
  rfl

/-- C7 witness: a 500 response with body `"oops"` yields the formatted
failure string. -/
theorem c7_witness :
    authenticated_request (fun s => toString s) "https://x" "Post" "tok" (some "b")
      (fun _ => TransportResult.response 500 (BodyRead.success "oops" (Except.error "p"))) =
      Except.error "Request failed (500): oops" :=
  (c7_response_passthrough (fun s => toString s) "https://x" "Post" "tok" (some "b")
    (fun _ => TransportResult.response 500 (BodyRead.success "oops" (Except.error "p")))
    500 (BodyRead.success "oops" (Except.error "p")) (by decide) rfl).trans rfl

/-- C8: `logout_user` returns the one fixed success string on any
HTTP-success status, the one fixed `"Logout failed"` string on any
non-success status, is independent of the response body (the server
detail is discarded), and surfaces a transport error as
`"Request failed: <cause>"`. -/
theorem c8_logout_behavior (status : Nat) (body : BodyRead) (e : String) :
    (statusIsSuccess status = true →
      logout_user (.response status body) = Except.ok "Logged out successfully") ∧
    (statusIsSuccess status = false →
      logout_user (.response status body) = Except.error "Logout failed") ∧
    (∀ body2 : BodyRead, logout_user (.response status body2) =
      logout_user (.response status body)) ∧
    logout_user (.connErr e) = Except.error ("Request failed: " ++ e) := by
  refine ⟨fun h => ?_, fun h => ?_, fun body2 => rfl, rfl⟩
  · simp [logout_user, h]
  · simp [logout_user, h]

/-- C8 witness: status 204 succeeds with the fixed string; status 503 with
a server-provided body fails with the fixed string, the body ignored. -/
theorem c8_witness :
    logout_user (.response 204 (BodyRead.failure "x")) = Except.ok "Logged out successfully" ∧
    logout_user (.response 503 (BodyRead.success "server detail" (Except.error "p"))) =
      Except.error "Logout failed" :=
  ⟨(c8_logout_behavior 204 (BodyRead.failure "x") "boom").1 (by decide),
   (c8_logout_behavior 503 (BodyRead.success "server detail" (Except.error "p")) "boom").2.1
     (by decide)⟩

/-- C9: method matching is case-insensitive — any method whose uppercasing
is a supported verb is built into a request and sent to the transport
rather than rejected, and any two methods with the same uppercasing
produce the same result. -/
theorem c9_case_insensitive_methods (sd : Nat → String) (url token : String)
    (body : Option String) (transport : SentRequest → TransportResult) (method : String)
    (h : toUppercase method ∈ supportedVerbs) :
    authenticated_request sd url method token body transport =
      handleResponse sd (transport (builtRequest url (toUppercase method) token body)) ∧
    ∀ method2 : String, toUppercase method2 = toUppercase method →
      authenticated_request sd url method2 token body transport =
        authenticated_request sd url method token body transport := by
  refine ⟨authenticated_request_supported sd url method token body transport h,
    fun method2 hm2 => ?_⟩
  rw [authenticated_request_supported sd url method2 token body transport (by rw [hm2]; exact h),
    authenticated_request_supported sd url method token body transport h, hm2]

/-- C9 witness: `"gEt"` and `"get"` take the send branch and agree; the
sent request answered with 204 is returned as its body text. -/
theorem c9_witness :
    (authenticated_request (fun s => toString s) "https://x" "gEt" "tok" none
        (fun _ => TransportResult.response 204 (BodyRead.success "payload" (Except.error "p"))) =
      authenticated_request (fun s => toString s) "https://x" "get" "tok" none
        (fun _ => TransportResult.response 204 (BodyRead.success "payload" (Except.error "p")))) ∧
    authenticated_request (fun s => toString s) "https://x" "get" "tok" none
        (fun _ => TransportResult.response 204 (BodyRead.success "payload" (Except.error "p"))) =
      Except.ok "payload" :=
  ⟨(c9_case_insensitive_methods (fun s => toString s) "https://x" "tok" none
      (fun _ => TransportResult.response 204 (BodyRead.success "payload" (Except.error "p")))
      "get" (by decide)).2 "gEt" (by decide),
   ((c9_case_insensitive_methods (fun s => toString s) "https://x" "tok" none
      (fun _ => TransportResult.response 204 (BodyRead.success "payload" (Except.error "p")))
      "get" (by decide)).1).trans rfl⟩

/-- C10: an `error` field whose value is not a JSON string is skipped:
classification then uses a string `message` field verbatim when one
exists, and otherwise the status-code fallback table. -/
theorem c10_nonstring_error_skipped (status : Nat) (j : Json) (v : Json)
    (hv : j.get "error" = some v) (hns : v.asStr = none) :
    (∀ m : String, getStr j "message" = some m → classify status (some j) = m) ∧
    (getStr j "message" = none → classify status (some j) = statusFallback status) := by
  have he : getStr j "error" = none := by simp [getStr, hv, hns]
  constructor
  · intro m hm
    simp only [classify]
    rw [he, hm]
  · intro hm
    simp only [classify]
    rw [he, hm]

/-- C10 witness: a numeric `error` field is skipped in favour of the
string `message` field. -/
theorem c10_witness :
    classify 777 (some (Json.obj [("error", Json.num 3), ("message", Json.str "hi")])) =
      "hi" :=
  (c10_nonstring_error_skipped 777 (Json.obj [("error", Json.num 3), ("message", Json.str "hi")])
    (Json.num 3) rfl rfl).1 "hi" rfl
